import Mathlib

/-!
Verification of the screenkit enhancement pipeline (src/screenkit/enhance.py)
against its natural-language specification.

Embedding conventions.  Python ints become Int (Nat where the source
guarantees non-negativity), Python floats become Rat, treated as exact: every
float literal appearing in a settled claim (1/2, padding fractions) is exactly
representable in binary floating point, so no rounding gap arises at the
inputs used.  Python int() applied to a float truncates toward zero, which is
Int.tdiv on the numerator/denominator of the exact rational value.  Fallible
Python code (raised exceptions) returns Option or Except.  Filesystem probes
(os.path.isfile, Path.is_file) are embedded as an oracle parameter
isFile : String -> Bool.  The OpenCV per-pixel uint8 primitives used by
render_cursor (cv2.add, cv2.bitwise_and with a mask argument,
cv2.bitwise_not) are embedded by their documented semantics: saturating
addition, keep-source-where-mask-nonzero, and bitwise complement
(255 - m for uint8).
-/

instance exceptDecEq {ε α : Type} [DecidableEq ε] [DecidableEq α] :
    DecidableEq (Except ε α)
  | .ok a, .ok b => decidable_of_iff (a = b) (by simp)
  | .ok _, .error _ => isFalse (by simp)
  | .error _, .ok _ => isFalse (by simp)
  | .error a, .error b => decidable_of_iff (a = b) (by simp)

/-- Python int(q) for a float value q: truncation toward zero of the exact
rational. -/
def truncRat (q : ℚ) : ℤ := q.num.tdiv q.den

/-- Python int(q * c) for a float q and int c, computed exactly: the value is
(q.num * c) / q.den, truncated toward zero. -/
def truncMul (q : ℚ) (c : ℤ) : ℤ := (q.num * c).tdiv q.den

/-- Python int(a * b / c) for ints a, b, c (true division then truncation
toward zero), as used for the derived-axis padding. -/
def truncDiv (a b c : ℤ) : ℤ := (a * b).tdiv c

/-- Round q * c to the nearest integer, ties upward: floor(q * c + 1/2)
computed as an integer floor division.  This is the specification-side
reading of "round(255 * shadowOpacity)"; at the tie value exercised below
(127.5) Python's banker rounding agrees (128). -/
def roundMul (q : ℚ) (c : ℤ) : ℤ := (2 * q.num * c + q.den).fdiv (2 * q.den)

/-! ## GeometryPlanner (enhance.py lines 189-197) -/

/-- The padding option of enhance_params: a Python float or a Python int. -/
inductive PaddingSpec where
  | frac (q : ℚ)
  | lit (n : ℤ)
deriving DecidableEq

/-- Geometry input: original capture size and canvas (screen) size. -/
structure GeomIn where
  origW : ℤ
  origH : ℤ
  canvasW : ℤ
  canvasH : ℤ
deriving DecidableEq

/-- Geometry output of the planner. -/
structure GeomOut where
  padX : ℤ
  padY : ℤ
  contentW : ℤ
  contentH : ℤ
deriving DecidableEq

/-- Horizontal slack: space_x = max(0, screen_width - orig_width). -/
def spaceX (g : GeomIn) : ℤ := max 0 (g.canvasW - g.origW)

/-- Vertical slack: space_y = max(0, screen_height - orig_height). -/
def spaceY (g : GeomIn) : ℤ := max 0 (g.canvasH - g.origH)

/-- Driving-axis padding:
int(padding * dim) if isinstance(padding, float) and 0 <= padding <= 1
else int(padding). -/
def drivingPadding (p : PaddingSpec) (canvasDim : ℤ) : ℤ :=
  match p with
  | .frac q => if 0 ≤ q ∧ q ≤ 1 then truncMul q canvasDim else truncRat q
  | .lit n => n

/-- Derived-axis padding: int(padDriving * origOther / origDriving). -/
def derivedPadding (padDriving origOther origDriving : ℤ) : ℤ :=
  truncDiv padDriving origOther origDriving

/-- The paddings branch of enhance: if space_x <= space_y the x axis drives,
otherwise the y axis drives. -/
def computePaddings (g : GeomIn) (p : PaddingSpec) : ℤ × ℤ :=
  if spaceX g ≤ spaceY g then
    let px := drivingPadding p g.canvasW
    (px, derivedPadding px g.origH g.origW)
  else
    let py := drivingPadding p g.canvasH
    (derivedPadding py g.origW g.origH, py)

/-- The full geometry computation of enhance:
new_width = min(screen_width - 2 * padding_x, orig_width) and
new_height = min(screen_height - 2 * padding_y, orig_height). -/
def planGeometry (g : GeomIn) (p : PaddingSpec) : GeomOut :=
  let pr := computePaddings g p
  { padX := pr.1
    padY := pr.2
    contentW := min (g.canvasW - 2 * pr.1) g.origW
    contentH := min (g.canvasH - 2 * pr.2) g.origH }

/-! ## hex_to_rgb, is_hex_color, background resolution
(enhance.py lines 24-52 and 202-213) -/

/-- Value of one hexadecimal digit, or none for any other character. -/
def hexDigitVal (c : Char) : Option ℕ :=
  if '0' ≤ c ∧ c ≤ '9' then some (c.toNat - '0'.toNat)
  else if 'a' ≤ c ∧ c ≤ 'f' then some (c.toNat - 'a'.toNat + 10)
  else if 'A' ≤ c ∧ c ≤ 'F' then some (c.toNat - 'A'.toNat + 10)
  else none

/-- Python int(s, 16) applied to a two-character slice of hex digits; none
models the ValueError raised on a non-hex-digit character. -/
def hexPair (c1 c2 : Char) : Option ℕ :=
  match hexDigitVal c1, hexDigitVal c2 with
  | some a, some b => some (16 * a + b)
  | _, _ => none

/-- hex_to_rgb after the lstrip: take the slices [0:2], [2:4], [4:6] and
convert each with int(-, 16).  A string shorter than 6 characters yields a
short slice, on which int(-, 16) raises (none here); characters past index 5
are ignored, as in Python slicing. -/
def hexToRGBAux (cs : List Char) : Option (ℕ × ℕ × ℕ) :=
  match cs with
  | c0 :: c1 :: c2 :: c3 :: c4 :: c5 :: _ =>
    match hexPair c0 c1, hexPair c2 c3, hexPair c4 c5 with
    | some r, some g, some b => some (r, g, b)
    | _, _, _ => none
  | _ => none

/-- hex_to_rgb: hex_color.lstrip("#") drops every leading '#', then the three
successive two-character slices are converted with int(-, 16). -/
def hex_to_rgb (s : String) : Option (ℕ × ℕ × ℕ) :=
  hexToRGBAux (s.data.dropWhile (fun c => c = '#'))

/-- Leading-character test for '#': Python str.startswith("#"). -/
def startsWithHash : List Char → Bool
  | [] => false
  | c :: _ => c = '#'

/-- is_hex_color: (hex_color.startswith("#") and len(hex_color) == 7)
or len(hex_color) == 6. -/
def is_hex_color (s : String) : Bool :=
  (startsWithHash s.data && s.data.length == 7) || s.data.length == 6

/-- config.BACKGROUND_MAP from config.py. -/
def BACKGROUND_MAP : List (String × String) :=
  [("default-wallpaper-1", "images/wallpapers/default-wallpaper-1.jpg"),
   ("default-wallpaper-2", "images/wallpapers/default-wallpaper-2.jpg"),
   ("default-wallpaper-3", "images/wallpapers/default-wallpaper-3.jpg"),
   ("default-wallpaper-4", "images/wallpapers/default-wallpaper-4.jpg")]

/-- First-match association lookup (Python dict get). -/
def lookupStr : List (String × String) → String → Option String
  | [], _ => none
  | (k, v) :: rest, s => if k = s then some v else lookupStr rest s

/-- The directory holding enhance.py, Path(__file__).parent. -/
def moduleDir : String := "screenkit"

/-- get_wallpaper_path: return the background itself if it is a file, else
the bundled asset path for a known preset name if that exists, else None.
The dict lookup defaults to "" for an unknown name, and the resulting
directory path is not a file. -/
def get_wallpaper_path (isFile : String → Bool) (background : String) :
    Option String :=
  if isFile background then some background
  else
    let rel := (lookupStr BACKGROUND_MAP background).getD ""
    let p := moduleDir ++ "/" ++ rel
    if isFile p then some p else none

/-- Outcome of background resolution: which canvas gets built. -/
inductive BgResult where
  | imageFile (path : String)
  | solid (rgb : ℕ × ℕ × ℕ)
deriving DecidableEq

/-- create_background applied to an RGB tuple: validate that every component
is at most 255 (non-negativity is inherent to the ℕ embedding of the values
produced here), else raise ValueError. -/
def create_background (color : ℕ × ℕ × ℕ) : Except String BgResult :=
  if color.1 ≤ 255 ∧ color.2.1 ≤ 255 ∧ color.2.2 ≤ 255 then
    .ok (.solid color)
  else .error "Invalid RGB tuple. Each value should be between 0 and 255."

/-- The string-background arm of enhance (lines 202-209): try the wallpaper
path, else the hex-color classifier; on a classified hex string convert with
hex_to_rgb (whose ValueError on non-hex characters propagates uncaught,
modelled as the error case), else fall back to a white canvas. -/
def resolveBackgroundStr (isFile : String → Bool) (background : String) :
    Except String BgResult :=
  match get_wallpaper_path isFile background with
  | some p => .ok (.imageFile p)
  | none =>
    if is_hex_color background then
      match hex_to_rgb background with
      | some rgb => create_background rgb
      | none => .error "ValueError: invalid literal for int() with base 16"
    else create_background (255, 255, 255)

/-! ## start_time (enhance.py lines 175-178 and 217-218) -/

/-- One recorded move event of the mouse-event log. -/
structure MoveEvent where
  time : ℚ
  x : ℚ
  y : ℚ
deriving DecidableEq

/-- start_time = mouse_events.get("move", [{}])[0].get("time", 0).
The move log is none when the data file is absent (mouse_events = {}) or has
no "move" key: then the default [{}] makes [0] the empty dict and
get("time", 0) yields 0.  When the "move" key is present, [0] on an empty
list raises IndexError (the error case), and otherwise yields the first
event's time. -/
def startTimeOf (moveLog : Option (List MoveEvent)) : Except String ℚ :=
  match moveLog with
  | none => .ok 0
  | some [] => .error "IndexError: list index out of range"
  | some (e :: _) => .ok e.time

/-! ## render_cursor (enhance.py lines 122-148) -/

/-- A BGR frame: dimensions plus a pixel map (row, column) to channel
values.  Channel values are uint8, embedded as ℕ with explicit 255 bounds
where they matter. -/
structure Img where
  w : ℕ
  h : ℕ
  pix : ℕ → ℕ → ℕ × ℕ × ℕ

/-- A BGRA sprite: the fourth channel is the alpha mask. -/
structure Sprite where
  w : ℕ
  h : ℕ
  pix : ℕ → ℕ → ℕ × ℕ × ℕ × ℕ

/-- cv2.add on uint8: saturating addition. -/
def cvAdd8 (a b : ℕ) : ℕ := min 255 (a + b)

/-- cv2.bitwise_and(src, src, mask=m) per pixel: keep src where the mask is
non-zero, else 0. -/
def maskedVal (v m : ℕ) : ℕ := if m ≠ 0 then v else 0

/-- cv2.bitwise_not on uint8. -/
def cvNot8 (m : ℕ) : ℕ := 255 - m

/-- One channel of the overlay blend (lines 144-147):
cv2.add(cv2.bitwise_and(cursor, cursor, mask=m),
cv2.bitwise_and(frame, frame, mask=cv2.bitwise_not(m))). -/
def blendChannel (c f m : ℕ) : ℕ := cvAdd8 (maskedVal c m) (maskedVal f (cvNot8 m))

/-- render_cursor.  The cv2.resize call (taken when scale > 0) is an external
interpolating primitive, embedded as the oracle rz; scalePos records the
scale > 0 test.  The bounds guard precedes the resize and returns the frame
unchanged.  Otherwise the sprite is cropped to the part that fits the frame
starting at (x, y) and each overlapped pixel is blended channel-wise with the
sprite's alpha as mask. -/
def render_cursor (rz : Sprite → Sprite) (frame : Img) (cursor : Sprite)
    (x y : ℤ) (scalePos : Bool) : Img :=
  if x < 0 ∨ x > (frame.w : ℤ) ∨ y < 0 ∨ y > (frame.h : ℤ) then frame
  else
    let cur := if scalePos then rz cursor else cursor
    let x0 := x.toNat
    let y0 := y.toNat
    let xEnd := min (x0 + cur.w) frame.w
    let yEnd := min (y0 + cur.h) frame.h
    { w := frame.w
      h := frame.h
      pix := fun i j =>
        if y0 ≤ i ∧ i < yEnd ∧ x0 ≤ j ∧ j < xEnd then
          let c := cur.pix (i - y0) (j - x0)
          let f := frame.pix i j
          (blendChannel c.1 f.1 c.2.2.2,
           blendChannel c.2.1 f.2.1 c.2.2.2,
           blendChannel c.2.2.1 f.2.2 c.2.2.2)
        else frame.pix i j }

/-- Specification-side per-channel alpha composition in case form: a zero
mask keeps the frame, a saturated mask keeps the cursor, and any intermediate
mask yields the saturating sum of both contributions. -/
def alphaMix (c f m : ℕ) : ℕ :=
  if m = 0 then f else if m = 255 then c else min 255 (c + f)

/-! ## mask/shadow cache and the shadow layer
(enhance.py lines 14-22 and 87-120) -/

/-- get_cache_key(x_offset, y_offset, radius, shadow_blur, shadow_opacity). -/
abbrev CacheKey := ℤ × ℤ × ℤ × ℤ × ℚ

/-- get_cache_key of CacheManager. -/
def get_cache_key (xOff yOff radius blur : ℤ) (opacity : ℚ) : CacheKey :=
  (xOff, yOff, radius, blur, opacity)

/-- First-match association lookup over cache keys (Python dict membership
and subscript).  Stored objects are represented by provenance stamps: each
generation event yields a fresh ℕ identity, so stamp equality is object
identity. -/
def lookupKey : List (CacheKey × ℕ) → CacheKey → Option ℕ
  | [], _ => none
  | (k, v) :: rest, k2 => if k = k2 then some v else lookupKey rest k2

/-- CacheManager: the mask table, the shadow table, and the next fresh
object identity. -/
structure CacheManager where
  mask : List (CacheKey × ℕ)
  shadow : List (CacheKey × ℕ)
  nextId : ℕ
deriving DecidableEq

/-- Look a key up in one table; on a miss, generate a fresh object, store it
under the key and advance the identity counter.  This is the shape of both
cached branches of apply_border_radius_with_shadow:
if cache_key not in table: table[cache_key] = generate(); use
table[cache_key]. -/
def getOrGen (tbl : List (CacheKey × ℕ)) (k : CacheKey) (fresh : ℕ) :
    ℕ × List (CacheKey × ℕ) × ℕ :=
  match lookupKey tbl k with
  | some v => (v, tbl, fresh)
  | none => (fresh, (k, fresh) :: tbl, fresh + 1)

/-- Result of one apply_border_radius_with_shadow call, as far as the cache
is concerned: the identity of the mask object used (none when radius <= 0,
where a fresh uncached full-opacity mask is built), the identity of the
shadow object used (none when shadow_blur <= 0, where a fresh transparent
layer is built), and the cache state after the call. -/
structure ApplyResult where
  maskId : Option ℕ
  shadowId : Option ℕ
  cache : CacheManager
deriving DecidableEq

/-- The cache behaviour of apply_border_radius_with_shadow (lines 93-115):
one key from the five parameters, a cached rounded-corner mask when
radius > 0, a cached blurred shadow when shadow_blur > 0. -/
def apply_border_radius_with_shadow (c : CacheManager)
    (xOff yOff radius blur : ℤ) (opacity : ℚ) : ApplyResult :=
  let k := get_cache_key xOff yOff radius blur opacity
  if 0 < radius then
    let m := getOrGen c.mask k c.nextId
    if 0 < blur then
      let s := getOrGen c.shadow k m.2.2
      ⟨some m.1, some s.1, ⟨m.2.1, s.2.1, s.2.2⟩⟩
    else ⟨some m.1, none, ⟨m.2.1, c.shadow, m.2.2⟩⟩
  else
    if 0 < blur then
      let s := getOrGen c.shadow k c.nextId
      ⟨none, some s.1, ⟨c.mask, s.2.1, s.2.2⟩⟩
    else ⟨none, none, c⟩

/-- Every object identity stored in the table was drawn below the counter. -/
def wfTable (tbl : List (CacheKey × ℕ)) (n : ℕ) : Prop :=
  ∀ p ∈ tbl, p.2 < n

/-- Cache well-formedness: both tables only hold identities below the
counter.  The empty cache satisfies this, and every call preserves it. -/
def CacheManager.WF (c : CacheManager) : Prop :=
  wfTable c.mask c.nextId ∧ wfTable c.shadow c.nextId

/-- The shadow layer drawn by lines 106-111 when shadow_blur > 0: a rounded
rectangle from (x_offset, y_offset) to
(x_offset + foreground.width, y_offset + foreground.height) with fill colour
(0, 0, 0, int(255 * shadow_opacity)), blurred by the given radius. -/
structure ShadowSpec where
  topLeft : ℤ × ℤ
  bottomRight : ℤ × ℤ
  radius : ℤ
  fillAlpha : ℤ
  blur : ℤ
deriving DecidableEq

/-- Build the shadow layer parameters from the call's arguments. -/
def mkShadowSpec (xOff yOff fgW fgH radius blur : ℤ) (opacity : ℚ) :
    ShadowSpec :=
  { topLeft := (xOff, yOff)
    bottomRight := (xOff + fgW, yOff + fgH)
    radius := radius
    fillAlpha := truncMul opacity 255
    blur := blur }

/-! ## Shared concrete inputs for witnesses and counterexamples -/

/-- The Python float 0.5 (exactly representable). -/
def half : ℚ := ⟨1, 2, by decide, by decide⟩

/-- A 1 by 1 frame whose single pixel is mid grey. -/
def greyFrame : Img := ⟨1, 1, fun _ _ => (100, 100, 100)⟩

/-- A 1 by 1 BGRA sprite with mid-grey colour and half-transparent alpha. -/
def greySprite : Sprite := ⟨1, 1, fun _ _ => (100, 100, 100, 128)⟩

/-- The cache state at the start of a pipeline run. -/
def emptyCache : CacheManager := ⟨[], [], 0⟩

/-! ## Supporting lemmas -/

/-- Exact-rational truncation agrees with the mathematical floor on
non-negative products, the form used by the shadow-alpha claim. -/
lemma truncMul_eq_floor (q : ℚ) (c : ℤ) (hq : 0 ≤ q) (hc : 0 ≤ c) :
    truncMul q c = ⌊(q * c : ℚ)⌋ := by
  have hnum : 0 ≤ q.num := Rat.num_nonneg.mpr hq
  have h1 : (q * (c : ℚ)) = ((q.num * c : ℤ) : ℚ) / ((q.den : ℕ) : ℚ) := by
    conv_lhs => rw [← Rat.num_div_den q]
    push_cast
    ring
  rw [truncMul, h1, Rat.floor_intCast_div_natCast,
      Int.tdiv_eq_ediv (mul_nonneg hnum hc) (Int.ofNat_nonneg q.den)]

/-! ## C1 -/

/-- C1: for every geometry input with positive original dimensions, the
planned content size satisfies contentW <= canvasW - 2 * padX,
contentH <= canvasH - 2 * padY, contentW <= origW and contentH <= origH:
content is never upscaled beyond the original capture. -/
theorem geometry_content_fits (g : GeomIn) (p : PaddingSpec)
    (hW : 0 < g.origW) (hH : 0 < g.origH) :
    (planGeometry g p).contentW ≤ g.canvasW - 2 * (planGeometry g p).padX ∧
    (planGeometry g p).contentH ≤ g.canvasH - 2 * (planGeometry g p).padY ∧
    (planGeometry g p).contentW ≤ g.origW ∧
    (planGeometry g p).contentH ≤ g.origH := by
  unfold planGeometry
  exact ⟨min_le_left _ _, min_le_left _ _, min_le_right _ _, min_le_right _ _⟩

/-- Witness for C1 at a concrete input. -/
theorem geometry_content_fits_witness :
    0 < (100 : ℤ) ∧ 0 < (50 : ℤ) ∧
    ((planGeometry ⟨100, 50, 800, 600⟩ (.lit 10)).contentW ≤
        800 - 2 * (planGeometry ⟨100, 50, 800, 600⟩ (.lit 10)).padX ∧
      (planGeometry ⟨100, 50, 800, 600⟩ (.lit 10)).contentH ≤
        600 - 2 * (planGeometry ⟨100, 50, 800, 600⟩ (.lit 10)).padY ∧
      (planGeometry ⟨100, 50, 800, 600⟩ (.lit 10)).contentW ≤ 100 ∧
      (planGeometry ⟨100, 50, 800, 600⟩ (.lit 10)).contentH ≤ 50) :=
  ⟨by decide, by decide,
    geometry_content_fits ⟨100, 50, 800, 600⟩ (.lit 10) (by decide) (by decide)⟩

/-! ## C2 -/

/-- C2: the axis with the smaller clamped slack drives (x wins ties): its
padding is drivingPadding (the fraction-of-canvas value when the padding is
a float in [0, 1], the literal value otherwise) and the other axis padding
is the integer-truncated derived value padDriving * origOther /
origDriving. -/
theorem geometry_driving_axis (g : GeomIn) (p : PaddingSpec)
    (hW : 0 < g.origW) (hH : 0 < g.origH) :
    (spaceX g ≤ spaceY g →
      (planGeometry g p).padX = drivingPadding p g.canvasW ∧
      (planGeometry g p).padY =
        derivedPadding (drivingPadding p g.canvasW) g.origH g.origW) ∧
    (spaceY g < spaceX g →
      (planGeometry g p).padY = drivingPadding p g.canvasH ∧
      (planGeometry g p).padX =
        derivedPadding (drivingPadding p g.canvasH) g.origW g.origH) := by
  unfold planGeometry computePaddings
  constructor
  · intro h
    rw [if_pos h]
    exact ⟨rfl, rfl⟩
  · intro h
    rw [if_neg (not_le.mpr h)]
    exact ⟨rfl, rfl⟩

/-- Witness for C2 at a concrete input where the y axis drives. -/
theorem geometry_driving_axis_witness :
    0 < (100 : ℤ) ∧ 0 < (50 : ℤ) ∧
    ((spaceX ⟨100, 50, 800, 600⟩ ≤ spaceY ⟨100, 50, 800, 600⟩ →
      (planGeometry ⟨100, 50, 800, 600⟩ (.lit 10)).padX =
        drivingPadding (.lit 10) 800 ∧
      (planGeometry ⟨100, 50, 800, 600⟩ (.lit 10)).padY =
        derivedPadding (drivingPadding (.lit 10) 800) 50 100) ∧
    (spaceY ⟨100, 50, 800, 600⟩ < spaceX ⟨100, 50, 800, 600⟩ →
      (planGeometry ⟨100, 50, 800, 600⟩ (.lit 10)).padY =
        drivingPadding (.lit 10) 600 ∧
      (planGeometry ⟨100, 50, 800, 600⟩ (.lit 10)).padX =
        derivedPadding (drivingPadding (.lit 10) 600) 100 50)) :=
  ⟨by decide, by decide,
    geometry_driving_axis ⟨100, 50, 800, 600⟩ (.lit 10) (by decide) (by decide)⟩

/-! ## C5 -/

/-- C5 counterexample: at shadowOpacity = 0.5 the code computes fill alpha
int(255 * 0.5) = 127, while round(255 * 0.5) = 128; the drawn alpha is the
truncated value, not the rounded one. -/
theorem shadow_alpha_not_rounded :
    (mkShadowSpec 40 30 200 100 20 10 half).fillAlpha = 127 ∧
    roundMul half 255 = 128 ∧ (127 : ℤ) ≠ 128 :=
  ⟨by decide, by decide, by decide⟩

/-- C5 amended: for shadowOpacity in [0, 1] and positive blur radius the
shadow layer is a rounded rectangle at the foreground offset and size whose
fill alpha is the truncation (floor, for non-negative opacity) of
255 * shadowOpacity. -/
theorem shadow_alpha_truncates (xOff yOff fgW fgH radius blur : ℤ) (q : ℚ)
    (h0 : 0 ≤ q) (h1 : q ≤ 1) (hb : 0 < blur) :
    (mkShadowSpec xOff yOff fgW fgH radius blur q).topLeft = (xOff, yOff) ∧
    (mkShadowSpec xOff yOff fgW fgH radius blur q).bottomRight =
      (xOff + fgW, yOff + fgH) ∧
    (mkShadowSpec xOff yOff fgW fgH radius blur q).fillAlpha =
      ⌊(q * 255 : ℚ)⌋ := by
  refine ⟨rfl, rfl, ?_⟩
  exact truncMul_eq_floor q 255 h0 (by norm_num)

/-- Witness for the amended C5 at shadowOpacity = 0.5. -/
theorem shadow_alpha_truncates_witness :
    0 ≤ half ∧ half ≤ 1 ∧ (0 : ℤ) < 10 ∧
    ((mkShadowSpec 40 30 200 100 20 10 half).topLeft = (40, 30) ∧
     (mkShadowSpec 40 30 200 100 20 10 half).bottomRight = (40 + 200, 30 + 100) ∧
     (mkShadowSpec 40 30 200 100 20 10 half).fillAlpha = ⌊(half * 255 : ℚ)⌋) :=
  ⟨by decide, by decide, by decide,
    shadow_alpha_truncates 40 30 200 100 20 10 half (by decide) (by decide)
      (by decide)⟩

/-! ## C6 -/

/-- C6: start_time is the first recorded move time when the move list is
non-empty, and 0 when the log is absent; but a present-and-empty move list
makes mouse_events.get("move", [{}])[0] raise IndexError instead of
yielding 0, contradicting the claim on the empty-sequence case. -/
theorem start_time_empty_move_raises :
    (∀ (e : MoveEvent) (rest : List MoveEvent),
      startTimeOf (some (e :: rest)) = .ok e.time) ∧
    startTimeOf none = .ok 0 ∧
    startTimeOf (some []) = .error "IndexError: list index out of range" :=
  ⟨fun _ _ => rfl, rfl, rfl⟩

/-! ## C9 -/

/-- C9: on a 6-character string of hex digits, hex_to_rgb yields the triple
of the three successive hex-digit pair values, and prepending a single '#'
yields the same triple. -/
theorem hex_to_rgb_roundtrip (c0 c1 c2 c3 c4 c5 : Char)
    (v0 v1 v2 v3 v4 v5 : ℕ)
    (h0 : hexDigitVal c0 = some v0) (h1 : hexDigitVal c1 = some v1)
    (h2 : hexDigitVal c2 = some v2) (h3 : hexDigitVal c3 = some v3)
    (h4 : hexDigitVal c4 = some v4) (h5 : hexDigitVal c5 = some v5) :
    hex_to_rgb (String.mk [c0, c1, c2, c3, c4, c5]) =
      some (16 * v0 + v1, 16 * v2 + v3, 16 * v4 + v5) ∧
    hex_to_rgb (String.mk ('#' :: [c0, c1, c2, c3, c4, c5])) =
      hex_to_rgb (String.mk [c0, c1, c2, c3, c4, c5]) := by
  have hsharp : hexDigitVal '#' = none := by decide
  have hc0 : ¬(c0 = '#') := by
    intro h
    rw [h, hsharp] at h0
    cases h0
  have hne : (decide (c0 = '#')) = false := decide_eq_false hc0
  constructor
  · simp [hex_to_rgb, hexToRGBAux, List.dropWhile, hne, hexPair,
      h0, h1, h2, h3, h4, h5]
  · simp [hex_to_rgb, List.dropWhile, hne]

/-- Witness for C9 on the string "1a2B3c". -/
theorem hex_to_rgb_roundtrip_witness :
    hexDigitVal '1' = some 1 ∧ hexDigitVal 'a' = some 10 ∧
    hexDigitVal '2' = some 2 ∧ hexDigitVal 'B' = some 11 ∧
    hexDigitVal '3' = some 3 ∧ hexDigitVal 'c' = some 12 ∧
    (hex_to_rgb (String.mk ['1', 'a', '2', 'B', '3', 'c']) =
      some (16 * 1 + 10, 16 * 2 + 11, 16 * 3 + 12) ∧
    hex_to_rgb (String.mk ('#' :: ['1', 'a', '2', 'B', '3', 'c'])) =
      hex_to_rgb (String.mk ['1', 'a', '2', 'B', '3', 'c'])) :=
  ⟨by decide, by decide, by decide, by decide, by decide, by decide,
    hex_to_rgb_roundtrip '1' 'a' '2' 'B' '3' 'c' 1 10 2 11 3 12
      (by decide) (by decide) (by decide) (by decide) (by decide) (by decide)⟩

/-! ## C10 -/

/-- C10: the 6-character string "zzzzzz" of non-hex-digit characters,
not an existing file and not a preset name, is accepted by the hex-color
classifier (a pure length test), and the subsequent hex_to_rgb conversion
raises an uncaught ValueError: the run produces neither the descriptive
invalid-color error of create_background nor a fallback canvas. -/
theorem hex_classifier_accepts_invalid :
    is_hex_color "zzzzzz" = true ∧
    get_wallpaper_path (fun _ => false) "zzzzzz" = none ∧
    hex_to_rgb "zzzzzz" = none ∧
    resolveBackgroundStr (fun _ => false) "zzzzzz" =
      .error "ValueError: invalid literal for int() with base 16" :=
  ⟨by decide, by decide, by decide, by decide⟩

/-! ## C3 -/

/-- C3 counterexample: the string "notacolor" is not a file (oracle false
everywhere), matches no preset and fails the hex classifier, yet background
resolution does not fail: it produces the white fallback canvas. -/
theorem background_unknown_no_error :
    resolveBackgroundStr (fun _ => false) "notacolor" =
      .ok (.solid (255, 255, 255)) ∧
    ∀ e : String, resolveBackgroundStr (fun _ => false) "notacolor" ≠
      .error e := by
  have h1 : resolveBackgroundStr (fun _ => false) "notacolor" =
      .ok (.solid (255, 255, 255)) := by decide
  exact ⟨h1, fun e he => by rw [h1] at he; exact Except.noConfusion he⟩

/-- C3 amended: when the background string is not resolvable to a wallpaper
file and does not pass the hex-color classifier, resolution does not fail:
it falls back to a plain white (255, 255, 255) canvas. -/
theorem background_fallback_white (isFile : String → Bool) (bg : String)
    (hpath : get_wallpaper_path isFile bg = none)
    (hhex : is_hex_color bg = false) :
    resolveBackgroundStr isFile bg = .ok (.solid (255, 255, 255)) := by
  simp [resolveBackgroundStr, hpath, hhex, create_background]

/-- Witness for the amended C3 on the string "notacolor". -/
theorem background_fallback_white_witness :
    get_wallpaper_path (fun _ => false) "notacolor" = none ∧
    is_hex_color "notacolor" = false ∧
    resolveBackgroundStr (fun _ => false) "notacolor" =
      .ok (.solid (255, 255, 255)) :=
  ⟨by decide, by decide,
    background_fallback_white (fun _ => false) "notacolor" (by decide)
      (by decide)⟩

/-! ## C7 -/

/-- C7: whenever x < 0 or x > frameWidth or y < 0 or y > frameHeight the
cursor overlay is a no-op and the input frame is returned unchanged. -/
theorem render_cursor_out_of_bounds (rz : Sprite → Sprite) (frame : Img)
    (cursor : Sprite) (x y : ℤ) (scalePos : Bool)
    (h : x < 0 ∨ x > (frame.w : ℤ) ∨ y < 0 ∨ y > (frame.h : ℤ)) :
    render_cursor rz frame cursor x y scalePos = frame := by
  unfold render_cursor
  rw [if_pos h]

/-- Witness for C7 with the cursor one pixel left of the frame. -/
theorem render_cursor_out_of_bounds_witness :
    ((-1 : ℤ) < 0 ∨ (-1 : ℤ) > (greyFrame.w : ℤ) ∨ (0 : ℤ) < 0 ∨
      (0 : ℤ) > (greyFrame.h : ℤ)) ∧
    render_cursor (fun s => s) greyFrame greySprite (-1) 0 false = greyFrame :=
  ⟨by decide,
    render_cursor_out_of_bounds (fun s => s) greyFrame greySprite (-1) 0 false
      (by decide)⟩

/-! ## C4 -/

/-- C4 counterexample: for a half-transparent sprite pixel (alpha 128) over
a mid-grey frame pixel the code produces channel value 200 (the saturating
sum of both full contributions), while the claimed proportional blend
cursorRGB * mask + frameRGB * (1 - mask) is 100:
200 * 255 is not 100 * 128 + 100 * (255 - 128). -/
theorem cursor_blend_not_proportional :
    (render_cursor (fun s => s) greyFrame greySprite 0 0 false).pix 0 0 =
      (200, 200, 200) ∧
    200 * 255 ≠ 100 * 128 + 100 * (255 - 128) :=
  ⟨by decide, by decide⟩

/-- The overlay blend in case form, under the uint8 bounds: a zero mask
keeps the frame value, a saturated mask keeps the cursor value, and any
partial mask value yields the saturating sum of both colours, not a
proportional blend. -/
lemma blendChannel_eq_alphaMix (c f m : ℕ) (hc : c ≤ 255) (hf : f ≤ 255)
    (hm : m ≤ 255) : blendChannel c f m = alphaMix c f m := by
  unfold blendChannel alphaMix cvAdd8 maskedVal cvNot8
  split_ifs <;> omega

/-- C4 amended: for every in-bounds cursor position and every pixel of the
overlapped region, the output pixel is channel-wise alphaMix of the sprite
and frame values with the sprite alpha as mask: frame colour at mask 0,
cursor colour at mask 255, and the saturating sum of both colours at any
partial mask (the mask acts as a binary selector per contribution, not as a
proportional opacity factor). -/
theorem render_cursor_blend_cases (rz : Sprite → Sprite) (frame : Img)
    (cursor : Sprite) (x y : ℤ) (i j : ℕ)
    (hx0 : 0 ≤ x) (hx1 : x ≤ (frame.w : ℤ))
    (hy0 : 0 ≤ y) (hy1 : y ≤ (frame.h : ℤ))
    (hiy : y.toNat ≤ i) (hiE : i < min (y.toNat + cursor.h) frame.h)
    (hjx : x.toNat ≤ j) (hjE : j < min (x.toNat + cursor.w) frame.w)
    (hcB : (cursor.pix (i - y.toNat) (j - x.toNat)).1 ≤ 255)
    (hcG : (cursor.pix (i - y.toNat) (j - x.toNat)).2.1 ≤ 255)
    (hcR : (cursor.pix (i - y.toNat) (j - x.toNat)).2.2.1 ≤ 255)
    (hcA : (cursor.pix (i - y.toNat) (j - x.toNat)).2.2.2 ≤ 255)
    (hfB : (frame.pix i j).1 ≤ 255) (hfG : (frame.pix i j).2.1 ≤ 255)
    (hfR : (frame.pix i j).2.2 ≤ 255) :
    (render_cursor rz frame cursor x y false).pix i j =
      (alphaMix (cursor.pix (i - y.toNat) (j - x.toNat)).1 (frame.pix i j).1
        (cursor.pix (i - y.toNat) (j - x.toNat)).2.2.2,
       alphaMix (cursor.pix (i - y.toNat) (j - x.toNat)).2.1
        (frame.pix i j).2.1
        (cursor.pix (i - y.toNat) (j - x.toNat)).2.2.2,
       alphaMix (cursor.pix (i - y.toNat) (j - x.toNat)).2.2.1
        (frame.pix i j).2.2
        (cursor.pix (i - y.toNat) (j - x.toNat)).2.2.2) := by
  have hng : ¬(x < 0 ∨ x > (frame.w : ℤ) ∨ y < 0 ∨ y > (frame.h : ℤ)) := by
    push_neg
    exact ⟨hx0, hx1, hy0, hy1⟩
  unfold render_cursor
  rw [if_neg hng]
  show (if y.toNat ≤ i ∧ i < min (y.toNat + cursor.h) frame.h ∧
      x.toNat ≤ j ∧ j < min (x.toNat + cursor.w) frame.w then _ else _) = _
  rw [if_pos ⟨hiy, hiE, hjx, hjE⟩]
  exact congrArg₂ Prod.mk (blendChannel_eq_alphaMix _ _ _ hcB hfB hcA)
    (congrArg₂ Prod.mk (blendChannel_eq_alphaMix _ _ _ hcG hfG hcA)
      (blendChannel_eq_alphaMix _ _ _ hcR hfR hcA))

/-- Witness for the amended C4 at the concrete half-transparent pixel. -/
theorem render_cursor_blend_cases_witness :
    (0 : ℤ) ≤ 0 ∧ (0 : ℤ) ≤ (greyFrame.w : ℤ) ∧
    (0 : ℕ) < min ((0 : ℤ).toNat + greySprite.h) greyFrame.h ∧
    (render_cursor (fun s => s) greyFrame greySprite 0 0 false).pix 0 0 =
      (alphaMix (greySprite.pix (0 - (0 : ℤ).toNat) (0 - (0 : ℤ).toNat)).1
        (greyFrame.pix 0 0).1
        (greySprite.pix (0 - (0 : ℤ).toNat) (0 - (0 : ℤ).toNat)).2.2.2,
       alphaMix (greySprite.pix (0 - (0 : ℤ).toNat) (0 - (0 : ℤ).toNat)).2.1
        (greyFrame.pix 0 0).2.1
        (greySprite.pix (0 - (0 : ℤ).toNat) (0 - (0 : ℤ).toNat)).2.2.2,
       alphaMix (greySprite.pix (0 - (0 : ℤ).toNat) (0 - (0 : ℤ).toNat)).2.2.1
        (greyFrame.pix 0 0).2.2
        (greySprite.pix (0 - (0 : ℤ).toNat) (0 - (0 : ℤ).toNat)).2.2.2) :=
  ⟨by decide, by decide, by decide,
    render_cursor_blend_cases (fun s => s) greyFrame greySprite 0 0 0 0
      (by decide) (by decide) (by decide) (by decide) (by decide) (by decide)
      (by decide) (by decide) (by decide) (by decide) (by decide) (by decide)
      (by decide) (by decide) (by decide)⟩

/-! ## C8 -/

lemma lookupKey_mem {tbl : List (CacheKey × ℕ)} {k : CacheKey} {v : ℕ}
    (h : lookupKey tbl k = some v) : (k, v) ∈ tbl := by
  induction tbl with
  | nil => exact Option.noConfusion h
  | cons hd t ih =>
    obtain ⟨k1, v1⟩ := hd
    simp only [lookupKey] at h
    by_cases hk : k1 = k
    · rw [if_pos hk] at h
      injection h with h
      subst hk h
      exact List.mem_cons_self _ _
    · rw [if_neg hk] at h
      exact List.mem_cons_of_mem _ (ih h)

lemma getOrGen_hit {tbl : List (CacheKey × ℕ)} {k : CacheKey} {v : ℕ}
    (h : lookupKey tbl k = some v) (g : ℕ) : getOrGen tbl k g = (v, tbl, g) := by
  simp [getOrGen, h]

lemma getOrGen_miss {tbl : List (CacheKey × ℕ)} {k : CacheKey}
    (h : lookupKey tbl k = none) (g : ℕ) :
    getOrGen tbl k g = (g, (k, g) :: tbl, g + 1) := by
  simp [getOrGen, h]

lemma lookup_getOrGen_self (tbl : List (CacheKey × ℕ)) (k : CacheKey) (g : ℕ) :
    lookupKey (getOrGen tbl k g).2.1 k = some (getOrGen tbl k g).1 := by
  cases h : lookupKey tbl k with
  | some v => rw [getOrGen_hit h]; exact h
  | none => rw [getOrGen_miss h]; simp [lookupKey]

lemma getOrGen_le (tbl : List (CacheKey × ℕ)) (k : CacheKey) (g : ℕ) :
    g ≤ (getOrGen tbl k g).2.2 := by
  cases h : lookupKey tbl k with
  | some v => rw [getOrGen_hit h]
  | none => rw [getOrGen_miss h]; exact Nat.le_succ g

lemma getOrGen_bound {tbl : List (CacheKey × ℕ)} {k : CacheKey} {g : ℕ}
    (hwf : wfTable tbl g) : (getOrGen tbl k g).1 < (getOrGen tbl k g).2.2 := by
  cases h : lookupKey tbl k with
  | some v => rw [getOrGen_hit h]; exact hwf _ (lookupKey_mem h)
  | none => rw [getOrGen_miss h]; exact Nat.lt_succ_self g

lemma wfTable_mono {tbl : List (CacheKey × ℕ)} {g g2 : ℕ} (h : g ≤ g2)
    (hwf : wfTable tbl g) : wfTable tbl g2 :=
  fun p hp => lt_of_lt_of_le (hwf p hp) h

/-- Characterisation of apply_border_radius_with_shadow when both the corner
radius and the shadow blur are positive: both tables are consulted and the
key is generated-or-found in each. -/
lemma apply_pos (c : CacheManager) (x y r b : ℤ) (q : ℚ)
    (hr : 0 < r) (hb : 0 < b) :
    apply_border_radius_with_shadow c x y r b q =
      ⟨some (getOrGen c.mask (get_cache_key x y r b q) c.nextId).1,
       some (getOrGen c.shadow (get_cache_key x y r b q)
          (getOrGen c.mask (get_cache_key x y r b q) c.nextId).2.2).1,
       ⟨(getOrGen c.mask (get_cache_key x y r b q) c.nextId).2.1,
        (getOrGen c.shadow (get_cache_key x y r b q)
          (getOrGen c.mask (get_cache_key x y r b q) c.nextId).2.2).2.1,
        (getOrGen c.shadow (get_cache_key x y r b q)
          (getOrGen c.mask (get_cache_key x y r b q) c.nextId).2.2).2.2⟩⟩ := by
  simp [apply_border_radius_with_shadow, hr, hb]

/-- C8: with positive corner radius and shadow blur, a second compositing
call with the five key parameters unchanged returns exactly the mask and
shadow objects stored by the first call and leaves the cache untouched,
while a call whose key is absent from both tables (in particular any key
differing in one of the five parameters, never used before) generates fresh
objects distinct from those of the first call. -/
theorem cache_reuse_and_regenerate
    (c : CacheManager) (x y r b : ℤ) (q : ℚ) (x2 y2 r2 b2 : ℤ) (q2 : ℚ)
    (hwf : c.WF) (hr : 0 < r) (hb : 0 < b) (hr2 : 0 < r2) (hb2 : 0 < b2)
    (hm2 : lookupKey (apply_border_radius_with_shadow c x y r b q).cache.mask
      (get_cache_key x2 y2 r2 b2 q2) = none)
    (hs2 : lookupKey (apply_border_radius_with_shadow c x y r b q).cache.shadow
      (get_cache_key x2 y2 r2 b2 q2) = none) :
    (apply_border_radius_with_shadow
        (apply_border_radius_with_shadow c x y r b q).cache x y r b q =
      ⟨(apply_border_radius_with_shadow c x y r b q).maskId,
       (apply_border_radius_with_shadow c x y r b q).shadowId,
       (apply_border_radius_with_shadow c x y r b q).cache⟩) ∧
    (apply_border_radius_with_shadow
        (apply_border_radius_with_shadow c x y r b q).cache
        x2 y2 r2 b2 q2).maskId ≠
      (apply_border_radius_with_shadow c x y r b q).maskId ∧
    (apply_border_radius_with_shadow
        (apply_border_radius_with_shadow c x y r b q).cache
        x2 y2 r2 b2 q2).shadowId ≠
      (apply_border_radius_with_shadow c x y r b q).shadowId := by
  have hA := apply_pos c x y r b q hr hb
  rw [hA] at hm2 hs2 ⊢
  dsimp only at hm2 hs2 ⊢
  have hLm := lookup_getOrGen_self c.mask (get_cache_key x y r b q) c.nextId
  have hLs := lookup_getOrGen_self c.shadow (get_cache_key x y r b q)
    (getOrGen c.mask (get_cache_key x y r b q) c.nextId).2.2
  have hmb : (getOrGen c.mask (get_cache_key x y r b q) c.nextId).1 <
      (getOrGen c.shadow (get_cache_key x y r b q)
        (getOrGen c.mask (get_cache_key x y r b q) c.nextId).2.2).2.2 :=
    lt_of_lt_of_le (getOrGen_bound hwf.1)
      (getOrGen_le c.shadow (get_cache_key x y r b q) _)
  have hsb : (getOrGen c.shadow (get_cache_key x y r b q)
        (getOrGen c.mask (get_cache_key x y r b q) c.nextId).2.2).1 <
      (getOrGen c.shadow (get_cache_key x y r b q)
        (getOrGen c.mask (get_cache_key x y r b q) c.nextId).2.2).2.2 :=
    getOrGen_bound
      (wfTable_mono (getOrGen_le c.mask (get_cache_key x y r b q) c.nextId)
        hwf.2)
  refine ⟨?_, ?_, ?_⟩
  · rw [apply_pos _ x y r b q hr hb]
    dsimp only
    rw [getOrGen_hit hLm, getOrGen_hit hLs]
  · rw [apply_pos _ x2 y2 r2 b2 q2 hr2 hb2]
    dsimp only
    rw [getOrGen_miss hm2]
    intro hEq
    injection hEq with hEq
    omega
  · rw [apply_pos _ x2 y2 r2 b2 q2 hr2 hb2]
    dsimp only
    rw [getOrGen_miss hm2]
    dsimp only
    rw [getOrGen_miss hs2]
    intro hEq
    injection hEq with hEq
    omega

/-- Witness for C8: first use of key (0, 0, 5, 3, 0.5) from the empty cache,
then the same key again, then the key with the x offset changed to 1. -/
theorem cache_reuse_and_regenerate_witness :
    emptyCache.WF ∧ (0 : ℤ) < 5 ∧ (0 : ℤ) < 3 ∧
    lookupKey (apply_border_radius_with_shadow emptyCache 0 0 5 3 half).cache.mask
      (get_cache_key 1 0 5 3 half) = none ∧
    lookupKey (apply_border_radius_with_shadow emptyCache 0 0 5 3 half).cache.shadow
      (get_cache_key 1 0 5 3 half) = none ∧
    ((apply_border_radius_with_shadow
        (apply_border_radius_with_shadow emptyCache 0 0 5 3 half).cache
        0 0 5 3 half =
      ⟨(apply_border_radius_with_shadow emptyCache 0 0 5 3 half).maskId,
       (apply_border_radius_with_shadow emptyCache 0 0 5 3 half).shadowId,
       (apply_border_radius_with_shadow emptyCache 0 0 5 3 half).cache⟩) ∧
    (apply_border_radius_with_shadow
        (apply_border_radius_with_shadow emptyCache 0 0 5 3 half).cache
        1 0 5 3 half).maskId ≠
      (apply_border_radius_with_shadow emptyCache 0 0 5 3 half).maskId ∧
    (apply_border_radius_with_shadow
        (apply_border_radius_with_shadow emptyCache 0 0 5 3 half).cache
        1 0 5 3 half).shadowId ≠
      (apply_border_radius_with_shadow emptyCache 0 0 5 3 half).shadowId) :=
  ⟨⟨fun p hp => absurd hp (List.not_mem_nil p),
    fun p hp => absurd hp (List.not_mem_nil p)⟩,
   by decide, by decide, by decide, by decide,
   cache_reuse_and_regenerate emptyCache 0 0 5 3 half 1 0 5 3 half
     ⟨fun p hp => absurd hp (List.not_mem_nil p),
      fun p hp => absurd hp (List.not_mem_nil p)⟩
     (by decide) (by decide) (by decide) (by decide) (by decide) (by decide)⟩
